import Mathlib

/-!
Shallow embedding of `lat_timing/weightman.py` (photon weighting subsystem):
the weight lookup table (`WeightedData.add_weights_from_skymodel`), the
empirical weight model (`WeightModel.__call__`, `create_model_dict`) and the
`WeightedData` orchestration (`__init__`, `get_binned_exposure`).

Conventions of the embedding:
* pandas/numpy float values carried by the photon table are modelled as `ℚ`
  (exact arithmetic); NaN entries of the weight table are modelled as `none`
  of `Option ℚ`;
* the real-valued closed form of `WeightModel.__call__` (which uses `exp`,
  `log`, `sqrt`) is modelled over `ℝ`;
* a Python attribute that may not have been assigned is an `Option` field
  (`none` = attribute absent, access raises `AttributeError`);
* raised exceptions are modelled by the `Res` result type below.
-/

namespace LatTiming

/-- Exceptions raised by the modelled code.  The spec names them
`NoWeightsFoundError` (`raise Exception('No weights found')`),
`ConfigurationError` (`raise Exception('No weight procedure')`); Python-level
`AttributeError` and `ZeroDivisionError` can also occur. -/
inductive Error where
  | noWeightsFound
  | noWeightProcedure
  | attributeError
  | zeroDivision
deriving DecidableEq

/-- Result of fallible code: normal return or a raised exception. -/
inductive Res (α : Type) where
  | ok (val : α)
  | err (e : Error)
deriving DecidableEq

/-- One row of the photon table: `band`, `pixel` (sky-pixel index, NEST
ordering), `radius`, and the `weight` column added by the weighting step
(`none` models NaN / column not yet set). -/
structure Photon where
  band : Nat
  pixel : Nat
  radius : ℚ
  weight : Option ℚ
deriving DecidableEq

/-- The upstream `TimedData` object as consumed by `WeightedData.__init__`:
photon table plus `nside`, `nest`, `verbose`, `source_name`, `edges` and the
exposure series the spec says should be snapshotted. -/
structure TimedData where
  photon_data : List Photon
  nside : Nat
  nest : Bool
  verbose : Nat
  source_name : String
  edges : List ℚ
  exposure : List ℚ
deriving DecidableEq

/-- State of a constructed `WeightedData` instance.  `exposure` is an
`Option` because `WeightedData.__init__` never assigns `self.exposure`
(it is only ever present on instances restored by `WeightedDataX`). -/
structure WDState where
  photon_data : List Photon
  nside : Nat
  nest : Bool
  source_name : String
  edges : List ℚ
  exposure : Option (List ℚ)
deriving DecidableEq

/-- The `bins` argument of `get_binned_exposure`: `None`, a scalar, or any
non-scalar value (e.g. a sequence of bin edges). -/
inductive Bins where
  | none
  | scalar (n : Nat)
  | seq (es : List ℚ)
deriving DecidableEq

/-- `exposure[:m].reshape(m//n, n).sum(axis=1)` unrolled: `k` consecutive
groups of `n` entries, each summed. -/
def binChunks : List ℚ → Nat → Nat → List ℚ
  | _, _, 0 => []
  | e, n, k + 1 => (e.take n).sum :: binChunks (e.drop n) n k

/-- `WeightedData.get_binned_exposure` given the value of `self.exposure`:
`None` and scalar `1` return the exposure unchanged; a scalar `n` truncates
to the largest multiple `m = len//n*n` and sums groups of `n` (`n = 0` would
raise `ZeroDivisionError` at `len//n`); any non-scalar falls through to
`return self.exposure`. -/
def get_binned_exposure (exposure : List ℚ) : Bins → Res (List ℚ)
  | Bins.none => Res.ok exposure
  | Bins.scalar n =>
      if n = 1 then Res.ok exposure
      else if n = 0 then Res.err Error.zeroDivision
      else
        Res.ok (binChunks (exposure.take (exposure.length / n * n)) n
          (exposure.length / n * n / n))
  | Bins.seq _ => Res.ok exposure

/-- The bound method `self.get_binned_exposure`: accessing `self.exposure`
raises `AttributeError` when the attribute was never assigned. -/
def WDState.get_binned_exposure (st : WDState) (bins : Bins) : Res (List ℚ) :=
  match st.exposure with
  | Option.none => Res.err Error.attributeError
  | Option.some e => LatTiming.get_binned_exposure e bins

/-! ## Weight lookup table (`WeightedData.add_weights_from_skymodel`) -/

/-- `np.right_shift(pix, 2*int(np.log2(nside/nside_wt)))`: pixel downsampling
from resolution `nside` to the coarser weight-map resolution `nside_wt`
(NEST ordering, exact integer arithmetic). -/
def shifted_pixel (nside nside_wt p : Nat) : Nat :=
  p >>> (2 * Nat.log2 (nside / nside_wt))

/-- `np.searchsorted(l, x)` (side `left`) on a sorted list: the number of
entries strictly below `x`. -/
def searchsorted (l : List Nat) (x : Nat) : Nat :=
  l.countP fun y => decide (y < x)

/-- The parsed weight map file (the fields `lookup` actually uses: `pixels`,
`nside`, and the per-band `weights` dict; a band not present in the dict is
`none`).  The remaining keys (`energy_bins`, `model_name`, `radius`, `order`,
`roi_name`) are only checked for presence and never read. -/
structure WtDict where
  pixels : List Nat
  nside : Nat
  weights : Nat → Option (List ℚ)

/-- Entry `(k, j)` of the dense table
`wts = np.full((32, len(wt_pix)+1), np.nan)` after `wts[k,:-1] = weights[k]`
for each band `k` of the dict: `none` models NaN, and column
`j = len(pixels)` is the reserved all-NaN trailing sentinel column. -/
def wtsEntry (w : WtDict) (k j : Nat) : Option ℚ :=
  if k < 32 ∧ j < w.pixels.length then
    match w.weights k with
    | Option.none => Option.none
    | Option.some row => row.get? j
  else Option.none

/-- The per-photon weight assignment of `add_weights_from_skymodel`:
downsample the pixel, replace an out-of-region pixel by the sentinel
`12*nside_wt**2` (beyond every valid pixel index), then look up
`wts[min(31, band), searchsorted(wt_pix, shifted_pix)]`. -/
def lookup_weight (w : WtDict) (nside : Nat) (p : Photon) : Photon :=
  let sp := shifted_pixel nside w.nside p.pixel
  let sp2 := if sp ∈ w.pixels then sp else 12 * w.nside ^ 2
  { p with weight := wtsEntry w (min 31 p.band) (searchsorted w.pixels sp2) }

/-- `WeightedData.add_weights_from_skymodel` after the map file has been
parsed, on NEST-ordered photon pixel ids (the RING→NEST conversion is done
by the external `healpy` library): raises `No weights found` when every
photon's downsampled pixel is outside `pixels`, otherwise attaches the
looked-up weight column to every photon. -/
def add_weights_from_skymodel (w : WtDict) (td : TimedData) : Res (List Photon) :=
  let shifteds := td.photon_data.map fun p => shifted_pixel td.nside w.nside p.pixel
  let bad := shifteds.map fun sp => decide (sp ∉ w.pixels)
  if bad.count true = bad.length then Res.err Error.noWeightsFound
  else Res.ok (td.photon_data.map (lookup_weight w td.nside))

/-- `WeightedData.add_weights_from_model` with the model file already loaded,
the resulting `WeightModel` represented by the band→radius→weight function it
induces (its closed form is verified separately as `wmCall`).  In the source
the weight-assignment line is nested inside `if self.verbose>0:`, so weights
are attached only when `verbose` is positive. -/
def add_weights_from_model (wm : Nat → ℚ → ℚ) (td : TimedData) : List Photon :=
  if 0 < td.verbose then
    td.photon_data.map fun p => { p with weight := some (wm p.band p.radius) }
  else td.photon_data

/-- `WeightedData.__init__`: if a map file is given it is used (even when a
model is also given); otherwise the model is used; otherwise
`Exception('No weight procedure')`.  On success the instance stores the
weighted photon table, `nside`, `nest`, `source_name` and `edges`; no
`exposure` attribute is ever assigned. -/
def WeightedData.init (data : TimedData) (weight_filename : Option WtDict)
    (weight_model : Option (Nat → ℚ → ℚ)) : Res WDState :=
  match weight_filename with
  | Option.some w =>
      match add_weights_from_skymodel w data with
      | Res.err e => Res.err e
      | Res.ok ps =>
          Res.ok ⟨ps, data.nside, data.nest, data.source_name, data.edges, Option.none⟩
  | Option.none =>
      match weight_model with
      | Option.some wm =>
          Res.ok ⟨add_weights_from_model wm data, data.nside, data.nest,
            data.source_name, data.edges, Option.none⟩
      | Option.none => Res.err Error.noWeightProcedure

/-! ## Empirical weight model (`WeightModel.__call__`) -/

/-- `WeightModel.__call__(i, r)` over the reals, with the parameter dict
`dd` mapping a band to its `(a, b, c)` triple (`none` = key error):
band clamped by `min(i, 13)`; `0` when `c == 0`; for `r <= 1` the value
`a*exp(log(b/a)*sqrt(r))`; for `r > 1` the value
`min(0.99, (b**2/c)*exp(log(c/b)*sqrt(r)))`. -/
noncomputable def wmCall (dd : Nat → Option (ℝ × ℝ × ℝ)) (i : Nat) (r : ℝ) :
    Option ℝ :=
  match dd (min i 13) with
  | Option.none => Option.none
  | Option.some (a, b, c) =>
      if c = 0 then Option.some 0
      else if r ≤ 1 then Option.some (a * Real.exp (Real.log (b / a) * Real.sqrt r))
      else Option.some (min 0.99 (b ^ 2 / c * Real.exp (Real.log (c / b) * Real.sqrt r)))

/-! ## Empirical model fit (`create_model_dict`, branch without plots) -/

/-- A row of the photon dataframe handed to `create_model_dict`: a photon
with its already-attached weight. -/
structure FitPhoton where
  band : Nat
  radius : ℚ
  weight : ℚ
deriving DecidableEq

/-- `np.mean` of a list of values (`none` models the NaN that `np.mean`
produces on an empty selection). -/
def npMean (l : List ℚ) : Option ℚ :=
  if l = [] then Option.none else Option.some (l.sum / (l.length : ℚ))

/-- Python `max` over a list (junk value `0` on the empty list, which the
code never reaches thanks to the `len(dfx)>0` guard). -/
def listMax : List ℚ → ℚ
  | [] => 0
  | a :: rest => rest.foldl max a

/-- A fit triple: the three per-window mean weights.  Components are
`Option ℚ` so that NaN (empty window) propagates like in numpy. -/
abbrev Triple := Option ℚ × Option ℚ × Option ℚ

/-- `df[df.band==i]`. -/
def bandData (df : List FitPhoton) (i : Nat) : List FitPhoton :=
  df.filter fun p => p.band == i

/-- The guard `len(dfx)>0 and max(dfx.weight)>1e-6` for band `i`. -/
def goodBand (df : List FitPhoton) (i : Nat) : Bool :=
  decide (bandData df i ≠ []) &&
    decide (1 / 1000000 < listMax ((bandData df i).map FitPhoton.weight))

/-- `[np.mean(dfx.weight[cut]) for cut in [r<0.5, |r-1|<0.2, |r-4|<0.2]]`. -/
def fitTriple (dfx : List FitPhoton) : Triple :=
  (npMean ((dfx.filter fun p => decide (p.radius < 1 / 2)).map FitPhoton.weight),
   npMean ((dfx.filter fun p => decide (|p.radius - 1| < 1 / 5)).map FitPhoton.weight),
   npMean ((dfx.filter fun p => decide (|p.radius - 4| < 1 / 5)).map FitPhoton.weight))

/-- The fallback entry `[vals[0], vals[1], vals[2]*(4 if i<4 else 1)]` built
from the held `vals` variable. -/
def fallbackTriple (vals : Triple) (i : Nat) : Triple :=
  (vals.1, vals.2.1, vals.2.2.map fun c => c * (if i < 4 then 4 else 1))

/-- The loop body of `create_model_dict` from band `i` on, carrying the
`vals` variable (which the source updates only in the data branch). -/
def cmdFrom (df : List FitPhoton) : Nat → Triple → Nat → List Triple
  | _, _, 0 => []
  | i, vals, fuel + 1 =>
      if goodBand df i then
        fitTriple (bandData df i) :: cmdFrom df (i + 1) (fitTriple (bandData df i)) fuel
      else
        fallbackTriple vals i :: cmdFrom df (i + 1) vals fuel

/-- `create_model_dict(df)` (the `make_plot=False` branch): bands `0..15` in
increasing order, `vals` starting as `[0]*3`; entry `i` of the returned list
is the dict entry `dd[i]`. -/
def create_model_dict (df : List FitPhoton) : List Triple :=
  cmdFrom df 0 (Option.some 0, Option.some 0, Option.some 0) 16

/-- The value of `vals` after the band-`i` iteration given its value before. -/
def nextVals (df : List FitPhoton) (vals : Triple) (i : Nat) : Triple :=
  if goodBand df i then fitTriple (bandData df i) else vals

/-- The value of the `vals` variable when the loop reaches band `i`:
the fit triple of the most recent band below `i` that passed the data guard,
or the initial `[0]*3` if none did. -/
def valsBefore (df : List FitPhoton) : Nat → Triple
  | 0 => (Option.some 0, Option.some 0, Option.some 0)
  | i + 1 => nextVals df (valsBefore df i) i

/-- The dict entry produced for band `i` given the held `vals`. -/
def entryFor (df : List FitPhoton) (vals : Triple) (i : Nat) : Triple :=
  if goodBand df i then fitTriple (bandData df i) else fallbackTriple vals i

/-- `vals` advanced `j` iterations starting at band `i`. -/
def valsAfter (df : List FitPhoton) : Triple → Nat → Nat → Triple
  | vals, _, 0 => vals
  | vals, i, j + 1 => valsAfter df (nextVals df vals i) (i + 1) j

/-! ## Concrete instances used by witnesses and counterexamples -/

/-- A concrete weight map: two coarse pixels `[0, 3]` at `nside 1`, band `0`
carrying the stored weights `[7/10, 1/2]`. -/
def w₀ : WtDict :=
  ⟨[0, 3], 1, fun k => if k = 0 then Option.some [7 / 10, 1 / 2] else Option.none⟩

/-- A concrete upstream dataset: one photon in band `0` at pixel `3`
(inside the weight region), native `nside 1`. -/
def td₀ : TimedData :=
  ⟨[⟨0, 3, 0, Option.none⟩], 1, true, 0, "src", [1, 2, 3], [5, 6, 7]⟩

/-- A concrete empirical-model weight function. -/
def wmq₀ : Nat → ℚ → ℚ := fun _ _ => 0

/-- The photon table produced by looking `td₀` up in `w₀`: pixel `3` is the
second entry of `w₀.pixels`, whose band-`0` stored weight is `1/2`. -/
def ps₀ : List Photon := [⟨0, 3, 0, Option.some (1 / 2)⟩]

/-- The state `WeightedData.__init__(td₀, w₀, ...)` produces: the photon got
the stored weight `1/2` of pixel `3` in band `0`, `edges` was copied, and no
`exposure` attribute exists. -/
def wdst₀ : WDState :=
  ⟨[⟨0, 3, 0, Option.some (1 / 2)⟩], 1, true, "src", [1, 2, 3], Option.none⟩

/-- A concrete parameter dict for the empirical model: band `0` has the
triple `(0.1, 0.3, 0.8)`, band `13` has `(0.2, 0.4, 0.5)`. -/
noncomputable def dd₂ : Nat → Option (ℝ × ℝ × ℝ) := fun k =>
  if k = 0 then Option.some (0.1, 0.3, 0.8)
  else if k = 13 then Option.some (0.2, 0.4, 0.5)
  else Option.none

/-- A concrete fit dataframe: band `0` has one photon in each of the three
radius windows, all with weight `1/2`; every other band is empty. -/
def ex9 : List FitPhoton :=
  [⟨0, 1 / 4, 1 / 2⟩, ⟨0, 1, 1 / 2⟩, ⟨0, 4, 1 / 2⟩]

/-! ## Theorems -/

theorem binChunks_length (n : Nat) : ∀ (k : Nat) (e : List ℚ),
    (binChunks e n k).length = k := by
  intro k
  induction k with
  | zero => intro e; rfl
  | succ k ih => intro e; simp [binChunks, ih]

theorem binChunks_sum (n : Nat) : ∀ (k : Nat) (e : List ℚ),
    (binChunks e n k).sum = (e.take (n * k)).sum := by
  intro k
  induction k with
  | zero => intro e; simp [binChunks]
  | succ k ih =>
      intro e
      have hsplit : e.take (n * (k + 1)) = e.take n ++ (e.drop n).take (n * k) := by
        have : n * (k + 1) = n + n * k := by ring
        rw [this, List.take_add]
      simp [binChunks, ih, hsplit]

theorem cmdFrom_succ (df : List FitPhoton) (i : Nat) (vals : Triple) (fuel : Nat) :
    cmdFrom df i vals (fuel + 1)
      = entryFor df vals i :: cmdFrom df (i + 1) (nextVals df vals i) fuel := by
  by_cases hg : goodBand df i = true
  · simp [cmdFrom, entryFor, nextVals, hg]
  · simp [cmdFrom, entryFor, nextVals, hg]

theorem cmdFrom_length (df : List FitPhoton) :
    ∀ (fuel i : Nat) (vals : Triple), (cmdFrom df i vals fuel).length = fuel := by
  intro fuel
  induction fuel with
  | zero => intro i vals; rfl
  | succ fuel ih =>
      intro i vals
      rw [cmdFrom_succ, List.length_cons, ih]

theorem cmdFrom_get? (df : List FitPhoton) :
    ∀ (fuel j i : Nat) (vals : Triple), j < fuel →
      (cmdFrom df i vals fuel).get? j
        = some (entryFor df (valsAfter df vals i j) (i + j)) := by
  intro fuel
  induction fuel with
  | zero => intro j i vals h; omega
  | succ fuel ih =>
      intro j i vals h
      rw [cmdFrom_succ]
      cases j with
      | zero => rfl
      | succ j =>
          rw [List.get?_cons_succ, ih j (i + 1) (nextVals df vals i) (by omega)]
          have harith : i + 1 + j = i + (j + 1) := by omega
          rw [harith]
          rfl

theorem valsAfter_valsBefore (df : List FitPhoton) :
    ∀ (j i : Nat), valsAfter df (valsBefore df i) i j = valsBefore df (i + j) := by
  intro j
  induction j with
  | zero => intro i; rfl
  | succ j ih =>
      intro i
      calc valsAfter df (valsBefore df i) i (j + 1)
          = valsAfter df (valsBefore df (i + 1)) (i + 1) j := rfl
        _ = valsBefore df ((i + 1) + j) := ih (i + 1)
        _ = valsBefore df (i + (j + 1)) := by
            rw [show (i + 1) + j = i + (j + 1) from by omega]

/-- Helper: `add_weights_from_skymodel` as a single conditional on "every
photon's downsampled pixel is outside the weight region". -/
theorem add_weights_from_skymodel_eq (w : WtDict) (td : TimedData) :
    add_weights_from_skymodel w td
      = if td.photon_data.all
            (fun p => decide (shifted_pixel td.nside w.nside p.pixel ∉ w.pixels)) = true
        then Res.err Error.noWeightsFound
        else Res.ok (td.photon_data.map (lookup_weight w td.nside)) := by
  unfold add_weights_from_skymodel
  refine if_congr ?_ rfl rfl
  rw [List.count_eq_length, List.all_eq_true]
  constructor
  · intro hall p hp
    exact (hall _ (List.mem_map_of_mem _ (List.mem_map_of_mem _ hp))).symm
  · intro hall b hb
    rcases List.mem_map.mp hb with ⟨sp, hsp, rfl⟩
    rcases List.mem_map.mp hsp with ⟨p, hp, rfl⟩
    exact (hall p hp).symm

theorem searchsorted_eq_indexOf (l : List Nat) (x : Nat)
    (hs : l.Pairwise (· < ·)) (hx : x ∈ l) :
    searchsorted l x = l.indexOf x := by
  induction l with
  | nil => cases hx
  | cons a t ih =>
      have ha : ∀ b ∈ t, a < b := (List.pairwise_cons.mp hs).1
      have ht : t.Pairwise (· < ·) := (List.pairwise_cons.mp hs).2
      by_cases hxa : x = a
      · subst hxa
        rw [List.indexOf_cons_self]
        unfold searchsorted
        rw [List.countP_cons]
        have h0 : t.countP (fun y => decide (y < x)) = 0 :=
          List.countP_eq_zero.mpr fun q hq => by
            simpa using Nat.not_lt.mpr (Nat.le_of_lt (ha q hq))
        simp [h0]
      · have hxt : x ∈ t := by
          rcases List.mem_cons.mp hx with h1 | h1
          · exact absurd h1 hxa
          · exact h1
        have hax : a < x := ha x hxt
        have hih := ih ht hxt
        unfold searchsorted at hih ⊢
        rw [List.indexOf_cons_ne _ (Nat.ne_of_lt hax), List.countP_cons, hih]
        simp [hax]

theorem searchsorted_all_lt (l : List Nat) (x : Nat) (h : ∀ q ∈ l, q < x) :
    searchsorted l x = l.length :=
  List.countP_eq_length.mpr fun q hq => by simpa using h q hq

/-- C1: For every photon, the weight attached by the sky-model lookup is
exactly the stored table value at row `min(band, 31)` and the column of the
photon's downsampled pixel when that pixel occurs in `pixels` (no
interpolation), and NaN (the trailing sentinel column) otherwise. -/
theorem C1_skymodel_lookup (w : WtDict) (td : TimedData) (ps : List Photon)
    (p : Photon) (k : Nat)
    (hs : w.pixels.Pairwise (· < ·))
    (hv : ∀ q ∈ w.pixels, q < 12 * w.nside ^ 2)
    (hok : add_weights_from_skymodel w td = Res.ok ps)
    (hp : td.photon_data.get? k = some p) :
    ps.get? k = some { p with weight :=
      (if shifted_pixel td.nside w.nside p.pixel ∈ w.pixels then
        wtsEntry w (min 31 p.band)
          (w.pixels.indexOf (shifted_pixel td.nside w.nside p.pixel))
      else Option.none) } := by
  rw [add_weights_from_skymodel_eq] at hok
  have hmap : ps = td.photon_data.map (lookup_weight w td.nside) := by
    split at hok
    · simp at hok
    · injection hok with h'; exact h'.symm
  subst hmap
  rw [List.get?_eq_getElem?, List.getElem?_map, ← List.get?_eq_getElem?, hp, Option.map_some']
  congr 1
  simp only [lookup_weight]
  by_cases hmem : shifted_pixel td.nside w.nside p.pixel ∈ w.pixels
  · rw [if_pos hmem, if_pos hmem, searchsorted_eq_indexOf _ _ hs hmem]
  · rw [if_neg hmem, if_neg hmem, searchsorted_all_lt _ _ hv]
    unfold wtsEntry
    rw [if_neg (by omega)]

/-- Witness for C1 at the concrete map `w₀` and dataset `td₀`. -/
theorem C1_skymodel_lookup_witness :
    w₀.pixels.Pairwise (· < ·) ∧ (∀ q ∈ w₀.pixels, q < 12 * w₀.nside ^ 2) ∧
    add_weights_from_skymodel w₀ td₀ = Res.ok ps₀ ∧
    td₀.photon_data.get? 0 = some ⟨0, 3, 0, Option.none⟩ ∧
    ps₀.get? 0 = some { (⟨0, 3, 0, Option.none⟩ : Photon) with weight :=
      (if shifted_pixel td₀.nside w₀.nside 3 ∈ w₀.pixels then
        wtsEntry w₀ (min 31 0) (w₀.pixels.indexOf (shifted_pixel td₀.nside w₀.nside 3))
      else Option.none) } :=
  ⟨by decide, by decide, by with_unfolding_all decide, by decide,
   C1_skymodel_lookup w₀ td₀ ps₀ ⟨0, 3, 0, Option.none⟩ 0 (by decide) (by decide)
     (by with_unfolding_all decide) (by decide)⟩

/-- C3: the lookup raises `No weights found` exactly when every photon's
downsampled pixel lies outside `pixels`; if at least one photon is inside,
it instead attaches the looked-up weight to every photon. -/
theorem C3_noweights_iff (w : WtDict) (td : TimedData) :
    (add_weights_from_skymodel w td = Res.err Error.noWeightsFound
      ↔ td.photon_data.all
          (fun p => decide (shifted_pixel td.nside w.nside p.pixel ∉ w.pixels)) = true)
    ∧ (td.photon_data.all
          (fun p => decide (shifted_pixel td.nside w.nside p.pixel ∉ w.pixels)) ≠ true
        → add_weights_from_skymodel w td
            = Res.ok (td.photon_data.map (lookup_weight w td.nside))) := by
  rw [add_weights_from_skymodel_eq]
  constructor
  · by_cases hC : td.photon_data.all
        (fun p => decide (shifted_pixel td.nside w.nside p.pixel ∉ w.pixels)) = true
    · simp [hC]
    · simp [hC]
  · intro hC
    rw [if_neg hC]

/-- Witness for C3 at the concrete map `w₀` and dataset `td₀`. -/
theorem C3_noweights_iff_witness :
    (add_weights_from_skymodel w₀ td₀ = Res.err Error.noWeightsFound
      ↔ td₀.photon_data.all
          (fun p => decide (shifted_pixel td₀.nside w₀.nside p.pixel ∉ w₀.pixels)) = true)
    ∧ (td₀.photon_data.all
          (fun p => decide (shifted_pixel td₀.nside w₀.nside p.pixel ∉ w₀.pixels)) ≠ true
        → add_weights_from_skymodel w₀ td₀
            = Res.ok (td₀.photon_data.map (lookup_weight w₀ td₀.nside))) :=
  C3_noweights_iff w₀ td₀

/-- C7: downsampling composes: shifting from resolution `2^(k+d2+d1)` down to
`2^(k+d2)` (a pixel-count factor of `4^d1`) and then down to `2^k` (factor
`4^d2`) equals downsampling once by the product factor `4^(d1+d2)`. -/
theorem C7_downsample_compose (p k d1 d2 : Nat) :
    shifted_pixel (2 ^ (k + d2)) (2 ^ k)
        (shifted_pixel (2 ^ (k + d2 + d1)) (2 ^ (k + d2)) p)
      = shifted_pixel (2 ^ (k + d2 + d1)) (2 ^ k) p := by
  unfold shifted_pixel
  rw [Nat.pow_div (by omega) (by norm_num), Nat.pow_div (by omega) (by norm_num),
      Nat.pow_div (by omega) (by norm_num), Nat.log2_eq_log_two, Nat.log2_eq_log_two,
      Nat.log2_eq_log_two, Nat.log_pow (by norm_num), Nat.log_pow (by norm_num),
      Nat.log_pow (by norm_num), ← Nat.shiftRight_add]
  congr 1
  omega

/-- C4 counterexample: with BOTH a weight map and a weight model supplied,
construction succeeds (the map takes precedence); no error is raised. -/
theorem C4_counterexample :
    WeightedData.init td₀ (Option.some w₀) (Option.some wmq₀) = Res.ok wdst₀ := by
  with_unfolding_all decide

theorem skymodel_not_noproc (w : WtDict) (td : TimedData) :
    add_weights_from_skymodel w td ≠ Res.err Error.noWeightProcedure := by
  rw [add_weights_from_skymodel_eq]
  split <;> simp

/-- C4 (amended): construction fails with the configuration error
`No weight procedure` exactly when NEITHER weighting source is given; when
both are given the map file takes precedence and no such error is raised. -/
theorem C4_config_error_iff (data : TimedData) (wf : Option WtDict)
    (wm : Option (Nat → ℚ → ℚ)) :
    WeightedData.init data wf wm = Res.err Error.noWeightProcedure
      ↔ wf = Option.none ∧ wm = Option.none := by
  cases wf with
  | none =>
      cases wm with
      | none => simp [WeightedData.init]
      | some f => simp [WeightedData.init]
  | some w =>
      simp only [WeightedData.init]
      cases h : add_weights_from_skymodel w data with
      | ok ps => simp
      | err e =>
          have he : e ≠ Error.noWeightProcedure := fun hh =>
            skymodel_not_noproc w data (hh ▸ h)
          simp [he]

/-- Witness for C4 (amended) at a construction with no weighting source. -/
theorem C4_config_error_iff_witness :
    WeightedData.init td₀ Option.none Option.none = Res.err Error.noWeightProcedure
      ↔ (Option.none : Option WtDict) = Option.none
        ∧ (Option.none : Option (Nat → ℚ → ℚ)) = Option.none :=
  C4_config_error_iff td₀ Option.none Option.none

/-- C5: after ANY successful construction the instance holds `edges` but no
`exposure` attribute, so the binned-exposure query fails with
`AttributeError` instead of being answered from the instance's state. -/
theorem C5_exposure_not_snapshotted (data : TimedData) (wf : Option WtDict)
    (wm : Option (Nat → ℚ → ℚ)) (st : WDState)
    (h : WeightedData.init data wf wm = Res.ok st) :
    st.edges = data.edges ∧ st.exposure = Option.none ∧
      st.get_binned_exposure Bins.none = Res.err Error.attributeError := by
  have hfields : st.edges = data.edges ∧ st.exposure = Option.none := by
    cases wf with
    | some w =>
        simp only [WeightedData.init] at h
        cases hs : add_weights_from_skymodel w data with
        | err e => rw [hs] at h; simp at h
        | ok ps => rw [hs] at h; injection h with h'; subst h'; exact ⟨rfl, rfl⟩
    | none =>
        cases wm with
        | some f =>
            simp only [WeightedData.init] at h
            injection h with h'; subst h'; exact ⟨rfl, rfl⟩
        | none => simp only [WeightedData.init] at h; simp at h
  refine ⟨hfields.1, hfields.2, ?_⟩
  unfold WDState.get_binned_exposure
  rw [hfields.2]

/-- Witness for C5 at the concrete construction `init td₀ w₀ wmq₀`. -/
theorem C5_witness :
    WeightedData.init td₀ (Option.some w₀) (Option.some wmq₀) = Res.ok wdst₀ ∧
    (wdst₀.edges = td₀.edges ∧ wdst₀.exposure = Option.none ∧
      wdst₀.get_binned_exposure Bins.none = Res.err Error.attributeError) :=
  ⟨by with_unfolding_all decide,
   C5_exposure_not_snapshotted td₀ (Option.some w₀) (Option.some wmq₀) wdst₀
     (by with_unfolding_all decide)⟩

/-- C6: for `n > 1` the binned exposure is the chunked sum series of length
`L//n`, its total equals the total of the length-`L//n*n` prefix of the
exposure, and `None` and `1` return the cached exposure unmodified. -/
theorem C6_binned_exposure (e : List ℚ) (n : Nat) (h : 1 < n) :
    get_binned_exposure e (Bins.scalar n)
        = Res.ok (binChunks (e.take (e.length / n * n)) n (e.length / n)) ∧
    (binChunks (e.take (e.length / n * n)) n (e.length / n)).length = e.length / n ∧
    (binChunks (e.take (e.length / n * n)) n (e.length / n)).sum
        = (e.take (e.length / n * n)).sum ∧
    get_binned_exposure e Bins.none = Res.ok e ∧
    get_binned_exposure e (Bins.scalar 1) = Res.ok e := by
  have hn0 : n ≠ 0 := by omega
  have hn1 : n ≠ 1 := by omega
  refine ⟨?_, binChunks_length n _ _, ?_, rfl, by simp [get_binned_exposure]⟩
  · simp [get_binned_exposure, hn0, hn1,
      Nat.mul_div_cancel _ (Nat.pos_of_ne_zero hn0)]
  · rw [binChunks_sum]
    rw [Nat.mul_comm, List.take_take, min_self]

/-- Witness for C6 with a five-entry exposure series and `n = 2`. -/
theorem C6_binned_exposure_witness :
    1 < 2 ∧
    (get_binned_exposure [1, 2, 3, 4, 5] (Bins.scalar 2)
        = Res.ok (binChunks ([1, 2, 3, 4, 5].take ([1, 2, 3, 4, 5].length / 2 * 2)) 2
            ([1, 2, 3, 4, 5].length / 2)) ∧
      (binChunks ([1, 2, 3, 4, 5].take ([1, 2, 3, 4, 5].length / 2 * 2)) 2
          ([1, 2, 3, 4, 5].length / 2)).length = [1, 2, 3, 4, 5].length / 2 ∧
      (binChunks ([(1 : ℚ), 2, 3, 4, 5].take ([(1 : ℚ), 2, 3, 4, 5].length / 2 * 2)) 2
          ([(1 : ℚ), 2, 3, 4, 5].length / 2)).sum
          = ([(1 : ℚ), 2, 3, 4, 5].take ([(1 : ℚ), 2, 3, 4, 5].length / 2 * 2)).sum ∧
      get_binned_exposure [1, 2, 3, 4, 5] Bins.none = Res.ok [1, 2, 3, 4, 5] ∧
      get_binned_exposure [1, 2, 3, 4, 5] (Bins.scalar 1) = Res.ok [1, 2, 3, 4, 5]) :=
  ⟨by norm_num, C6_binned_exposure [1, 2, 3, 4, 5] 2 (by norm_num)⟩

/-- C10: a `bins` argument that is neither `None` nor a scalar (e.g. a
sequence of bin edges) falls through to `return self.exposure`: the cached
exposure is returned unmodified, the argument silently ignored. -/
theorem C10_nonscalar_bins (e es : List ℚ) :
    get_binned_exposure e (Bins.seq es) = Res.ok e := rfl

/-- C2: `WeightModel.__call__(i, r)` with `(a,b,c)` the triple stored for
band `min(i,13)`: returns `0` when `c = 0`; `a*exp(log(b/a)*sqrt(r))` for
`r ≤ 1` (hence `a` at `r = 0` and `b` at `r = 1`);
`min(0.99, (b²/c)*exp(log(c/b)*sqrt(r)))` for `r > 1` (hence `min(0.99, c)`
at `r = 4`), never exceeding `0.99` for any `r > 1`. -/
theorem C2_evaluate (dd : Nat → Option (ℝ × ℝ × ℝ)) (a b c : ℝ) (i : Nat) (r : ℝ)
    (h : dd (min i 13) = Option.some (a, b, c)) (_hr : 0 ≤ r) :
    (c = 0 → wmCall dd i r = Option.some 0) ∧
    (c ≠ 0 → r ≤ 1 →
      wmCall dd i r = Option.some (a * Real.exp (Real.log (b / a) * Real.sqrt r))) ∧
    (c ≠ 0 → 1 < r →
      wmCall dd i r
        = Option.some (min 0.99 (b ^ 2 / c * Real.exp (Real.log (c / b) * Real.sqrt r)))) ∧
    (c ≠ 0 → wmCall dd i 0 = Option.some a) ∧
    (c ≠ 0 → 0 < a → 0 < b → wmCall dd i 1 = Option.some b) ∧
    (c ≠ 0 → 0 < b → 0 < c → wmCall dd i 4 = Option.some (min 0.99 c)) ∧
    (1 < r → (wmCall dd i r).getD 1 ≤ 0.99) := by
  have hcall : ∀ r' : ℝ, wmCall dd i r' =
      if c = 0 then Option.some 0
      else if r' ≤ 1 then Option.some (a * Real.exp (Real.log (b / a) * Real.sqrt r'))
      else Option.some (min 0.99 (b ^ 2 / c * Real.exp (Real.log (c / b) * Real.sqrt r'))) := by
    intro r'; unfold wmCall; rw [h]
  refine ⟨?_, ?_, ?_, ?_, ?_, ?_, ?_⟩
  · intro hc; rw [hcall, if_pos hc]
  · intro hc hr1; rw [hcall, if_neg hc, if_pos hr1]
  · intro hc hr1; rw [hcall, if_neg hc, if_neg (not_le.mpr hr1)]
  · intro hc
    rw [hcall, if_neg hc, if_pos (by norm_num : (0 : ℝ) ≤ 1)]
    simp
  · intro hc ha hb
    rw [hcall, if_neg hc, if_pos le_rfl, Real.sqrt_one, mul_one,
      Real.exp_log (div_pos hb ha), ← mul_div_assoc,
      mul_div_cancel_left₀ b (ne_of_gt ha)]
  · intro hc hb hc'
    rw [hcall, if_neg hc, if_neg (by norm_num : ¬((4 : ℝ) ≤ 1))]
    have h4 : Real.sqrt 4 = 2 := by
      rw [show (4 : ℝ) = 2 ^ 2 by norm_num, Real.sqrt_sq (by norm_num : (0 : ℝ) ≤ 2)]
    rw [h4, mul_two, Real.exp_add, Real.exp_log (div_pos hc' hb)]
    have hval : b ^ 2 / c * (c / b * (c / b)) = c := by
      field_simp
      ring
    rw [hval]
  · intro hr1
    rw [hcall]
    by_cases hc : c = 0
    · rw [if_pos hc]; norm_num
    · rw [if_neg hc, if_neg (not_le.mpr hr1)]
      simp

/-- Witness for C2 at the concrete dict `dd₂`, band `0`, radius `4`. -/
theorem C2_evaluate_witness :
    dd₂ (min 0 13) = Option.some ((0.1 : ℝ), (0.3 : ℝ), (0.8 : ℝ)) ∧
    (0 : ℝ) ≤ 4 ∧
    (((0.8 : ℝ) = 0 → wmCall dd₂ 0 4 = Option.some 0) ∧
     ((0.8 : ℝ) ≠ 0 → (4 : ℝ) ≤ 1 →
       wmCall dd₂ 0 4
         = Option.some ((0.1 : ℝ) * Real.exp (Real.log (0.3 / 0.1) * Real.sqrt 4))) ∧
     ((0.8 : ℝ) ≠ 0 → (1 : ℝ) < 4 →
       wmCall dd₂ 0 4
         = Option.some (min 0.99
             ((0.3 : ℝ) ^ 2 / 0.8 * Real.exp (Real.log (0.8 / 0.3) * Real.sqrt 4)))) ∧
     ((0.8 : ℝ) ≠ 0 → wmCall dd₂ 0 0 = Option.some 0.1) ∧
     ((0.8 : ℝ) ≠ 0 → (0 : ℝ) < 0.1 → (0 : ℝ) < 0.3 →
       wmCall dd₂ 0 1 = Option.some 0.3) ∧
     ((0.8 : ℝ) ≠ 0 → (0 : ℝ) < 0.3 → (0 : ℝ) < 0.8 →
       wmCall dd₂ 0 4 = Option.some (min 0.99 0.8)) ∧
     ((1 : ℝ) < 4 → (wmCall dd₂ 0 4).getD 1 ≤ 0.99)) :=
  ⟨by norm_num [dd₂], by norm_num,
   C2_evaluate dd₂ 0.1 0.3 0.8 0 4 (by norm_num [dd₂]) (by norm_num)⟩

/-- C8: every band index `i ≥ 14` is clamped to band `13`: the model returns
exactly the band-13 value for any radius. -/
theorem C8_band_clamp (dd : Nat → Option (ℝ × ℝ × ℝ)) (i : Nat) (r : ℝ)
    (h : 14 ≤ i) : wmCall dd i r = wmCall dd 13 r := by
  unfold wmCall
  rw [show min i 13 = 13 by omega, show min 13 13 = 13 by omega]

/-- Witness for C8 at band `14` and radius `2`. -/
theorem C8_band_clamp_witness : 14 ≤ 14 ∧ wmCall dd₂ 14 2 = wmCall dd₂ 13 2 :=
  ⟨by norm_num, C8_band_clamp dd₂ 14 2 (by norm_num)⟩

/-- C9 counterexample: in `ex9` band 0 has data with triple `(1/2,1/2,1/2)`
and bands 1 and 2 are empty.  The code gives `dd[1] = dd[2] = (1/2,1/2,2)`;
the claim predicts `dd[2] = (1/2, 1/2, dd[1].c * 4) = (1/2,1/2,8)`, which is
not what the code produces. -/
theorem C9_counterexample :
    (create_model_dict ex9).get? 1
        = some (Option.some (1 / 2), Option.some (1 / 2), Option.some 2) ∧
    goodBand ex9 2 = false ∧
    (create_model_dict ex9).get? 2
        = some (Option.some (1 / 2), Option.some (1 / 2), Option.some 2) ∧
    (create_model_dict ex9).get? 2
        ≠ some (Option.some (1 / 2), Option.some (1 / 2), Option.some (2 * 4)) :=
  ⟨by with_unfolding_all decide, by with_unfolding_all decide,
   by with_unfolding_all decide, by with_unfolding_all decide⟩

/-- C9 (amended): the fit processes bands `0..15` in increasing order; a band
passing the data guard gets the triple of window means `fitTriple`; a band
failing it gets the triple held in `vals` — the fit of the most recent band
that passed the guard, initially `(0,0,0)`, NOT the previous band's produced
entry — with its third component scaled by 4 iff the band index is below 4. -/
theorem C9_fit_characterization (df : List FitPhoton) (i : Nat) (hi : i < 16) :
    (create_model_dict df).length = 16 ∧
    (create_model_dict df).get? i = some (entryFor df (valsBefore df i) i) := by
  refine ⟨cmdFrom_length df 16 0 _, ?_⟩
  unfold create_model_dict
  rw [cmdFrom_get? df 16 i 0 _ hi]
  have h0 : valsAfter df (Option.some 0, Option.some 0, Option.some 0) 0 i
      = valsBefore df i := by
    have hv := valsAfter_valsBefore df i 0
    rwa [Nat.zero_add] at hv
  rw [Nat.zero_add, h0]

/-- Witness for C9 at the concrete dataframe `ex9` and band `2`. -/
theorem C9_fit_characterization_witness :
    2 < 16 ∧ ((create_model_dict ex9).length = 16 ∧
      (create_model_dict ex9).get? 2 = some (entryFor ex9 (valsBefore ex9 2) 2)) :=
  ⟨by norm_num, C9_fit_characterization ex9 2 (by norm_num)⟩

end LatTiming
